import Mathlib

/-!
Shallow embedding of `src/climate.c` (NOAA climate-data aggregation).

Modelling conventions:
* C `double`/`long double` values are modelled as exact rationals (`ℚ`);
  the decimal literals of the source (`1.8`, `459.67`, `DBL_MAX`) and the
  decimal numerals appearing in input fields are represented exactly.
* C `unsigned long` (64-bit) arithmetic is modelled on `Nat` with an
  explicit wrap at `2 ^ 64` (`wrap64`).
* C `int` (32-bit) results of `atoi` are modelled by `toInt32` composed
  with the `strtol` saturation at the `long` bounds, which is the
  behaviour of `atoi` on a 64-bit glibc platform (the conversion
  `long → int` is the usual two's-complement truncation).
* Input is modelled as the list of lines delivered by `fgets`: each line
  is a `List Char` (a line read from the file normally ends in `'\n'`).
-/

attribute [local semireducible] Rat.add Rat.mul Rat.sub Rat.inv

set_option maxRecDepth 100000

namespace Climate

/-- `NUM_STATES` from climate.c line 72: capacity of the `states` array. -/
def NUM_STATES : Nat := 50

/-- The exact value of C's `DBL_MAX`, `(2 - 2⁻⁵²) · 2¹⁰²³ = 2¹⁰²⁴ - 2⁹⁷¹`,
written as a numeral so that it evaluates in the kernel (see
`DBL_MAX_eq_pow`). -/
def DBL_MAX : ℚ := 179769313486231570814527423731704356798070567525844996598917476803157260780028538760589558632766878171540458953514382464234321326889464182768467546703537516986049910576551282076245490090389328944075868508455133942304583236903222948165808559332123348274797826204144723168738177180919299881250404026184124858368

/-- `struct climate_info` (climate.c lines 75-87).  The `code` field holds
the first two characters copied by `strncpy(state->code, tokens[0], 2)`. -/
structure ClimateInfo where
  code : List Char
  num_records : Nat
  humidity_sum : ℚ
  temperature_sum : ℚ
  max_temp : ℚ
  min_temp : ℚ
  max_temp_timestamp : Int
  min_temp_timestamp : Int
  lightning_strikes : Nat
  snow_cover_records : Nat
  cloud_cover_sum : ℚ
deriving DecidableEq, Repr

/-- Wrap an integer into `unsigned long` range (`mod 2 ^ 64`), as C does
when adding an `int` into an `unsigned long` field. -/
def wrap64 (v : Int) : Nat := (v % (2 ^ 64 : Int)).toNat

/-- Two's-complement truncation of an integer to a 32-bit `int`, the
implementation-defined `long → int` conversion performed inside `atoi`
on the usual platforms. -/
def toInt32 (v : Int) : Int :=
  let r := v % (2 ^ 32 : Int)
  if r < 2 ^ 31 then r else r - 2 ^ 32

/-- `strtol` saturation at the 64-bit `long` bounds. -/
def clampLong (v : Int) : Int :=
  if v < -(2 ^ 63) then -(2 ^ 63)
  else if 2 ^ 63 - 1 < v then 2 ^ 63 - 1
  else v

/-- C `isspace` on the default locale: space and the characters
`\t`,`\n`,`\v`,`\f`,`\r` (codes 9-13). -/
def isSpaceByte (c : Char) : Bool :=
  c.toNat = 32 || (9 ≤ c.toNat && c.toNat ≤ 13)

/-- Read a maximal run of decimal digits, accumulating their value;
returns the value and the unconsumed remainder of the input. -/
def readDigits : List Char → Nat → Nat × List Char
  | c :: rest, acc =>
      if c.isDigit then readDigits rest (10 * acc + (c.toNat - 48)) else (acc, c :: rest)
  | [], acc => (acc, [])

/-- Read a maximal run of digits after the decimal point, with `scale`
the place value of the next digit. -/
def fracDigits : List Char → ℚ → ℚ → ℚ
  | c :: rest, scale, acc =>
      if c.isDigit then fracDigits rest (scale / 10) (acc + scale * ((c.toNat - 48 : Nat) : ℚ))
      else acc
  | [], _, acc => acc

/-- Magnitude part of `atof`: integer digits, then an optional `.` and
fraction digits. -/
def atofMag (cs : List Char) : ℚ :=
  let p := readDigits cs 0
  match p.2 with
  | '.' :: rest => (p.1 : ℚ) + fracDigits rest (1 / 10) 0
  | _ => (p.1 : ℚ)

/-- C `atof` on the plain decimal forms exercised by this program
(optional leading whitespace, optional sign, digits, optional fraction).
Unparsable input yields `0`, matching `atof`'s permissive zero fallback.
The exponent/hex/inf forms of `strtod`, which never occur in the TDV
fields, are not modelled, and the rounding of the decimal to a binary
`double` is abstracted away (values are exact rationals). -/
def atof (cs : List Char) : ℚ :=
  let cs1 := cs.dropWhile isSpaceByte
  match cs1 with
  | '-' :: rest => -(atofMag rest)
  | '+' :: rest => atofMag rest
  | _ => atofMag cs1

/-- The mathematical integer denoted by the longest sign-digits run
(before any clamping to machine range). -/
def atoiVal (cs : List Char) : Int :=
  let cs1 := cs.dropWhile isSpaceByte
  match cs1 with
  | '-' :: rest => -(((readDigits rest 0).1 : Int))
  | '+' :: rest => ((readDigits rest 0).1 : Int)
  | _ => ((readDigits cs1 0).1 : Int)

/-- C `atoi` = `(int) strtol(s, NULL, 10)` on a 64-bit platform:
parse, saturate at `long` bounds, then truncate to 32-bit `int`. -/
def atoi (cs : List Char) : Int := toInt32 (clampLong (atoiVal cs))

/-- `kelvin_to_fahrenheit` (climate.c lines 90-92): `kelvin * 1.8 - 459.67`,
with the decimal constants taken exactly. -/
def kelvin_to_fahrenheit (kelvin : ℚ) : ℚ := kelvin * (9 / 5) - 45967 / 100

/-- `create_state` (climate.c lines 95-115): a fresh accumulator whose
`code` is the first two characters of `tokens[0]`, with zeroed counts and
sums, `max_temp = -DBL_MAX`, `min_temp = DBL_MAX`, zero timestamps. -/
def create_state (tokens : List (List Char)) : ClimateInfo :=
  { code := (tokens.getD 0 []).take 2
    num_records := 0
    humidity_sum := 0
    temperature_sum := 0
    max_temp := -DBL_MAX
    min_temp := DBL_MAX
    max_temp_timestamp := 0
    min_temp_timestamp := 0
    lightning_strikes := 0
    snow_cover_records := 0
    cloud_cover_sum := 0 }

/-- `update_state_info` (climate.c lines 118-139), as its effect on the
one array slot `states[index]` it mutates.  `Int.tdiv` is C's
truncating-towards-zero division of `atoi(tokens[1]) / 1000`. -/
def update_state_info (s : ClimateInfo) (tokens : List (List Char)) : ClimateInfo :=
  let temp_fahrenheit := kelvin_to_fahrenheit (atof (tokens.getD 8 []))
  let ts := Int.tdiv (atoi (tokens.getD 1 [])) 1000
  { code := s.code
    num_records := (s.num_records + 1) % 2 ^ 64
    humidity_sum := s.humidity_sum + atof (tokens.getD 3 [])
    temperature_sum := s.temperature_sum + temp_fahrenheit
    cloud_cover_sum := s.cloud_cover_sum + atof (tokens.getD 5 [])
    max_temp := if temp_fahrenheit > s.max_temp then temp_fahrenheit else s.max_temp
    max_temp_timestamp :=
      if temp_fahrenheit > s.max_temp then ts else s.max_temp_timestamp
    min_temp := if temp_fahrenheit < s.min_temp then temp_fahrenheit else s.min_temp
    min_temp_timestamp :=
      if temp_fahrenheit < s.min_temp then ts else s.min_temp_timestamp
    lightning_strikes := wrap64 ((s.lightning_strikes : Int) + atoi (tokens.getD 6 []))
    snow_cover_records := wrap64 ((s.snow_cover_records : Int) + atoi (tokens.getD 4 [])) }

/-- The `strtok` tokenizing loop of `analyze_file` (climate.c lines
146-153): `strtok` returns the maximal nonempty runs between `'\t'`
delimiters (consecutive delimiters act as one), and at most the first 9
tokens are kept (`tokenIndex < 9`). -/
def tokenize (line : List Char) : List (List Char) :=
  ((line.splitOn '\t').filter (fun t => !t.isEmpty)).take 9

/-- The state-placement loop of `analyze_file` (climate.c lines 167-175).
The occupied slots of the C array form a prefix, modelled as the list
`states`; `budget` is the number of slots (occupied or NULL) the loop may
still visit.  A NULL slot installs the freshly created state (without
folding the record); a matching code folds the record via
`update_state_info`; exhausting the budget drops the record. -/
def scan_states : Nat → List ClimateInfo → ClimateInfo → List (List Char) → List ClimateInfo
  | 0, states, _, _ => states
  | Nat.succ _, [], st, _ => [st]
  | Nat.succ b, s :: rest, st, tokens =>
      if s.code = st.code then update_state_info s tokens :: rest
      else s :: scan_states b rest st tokens

/-- One iteration of the `fgets` loop of `analyze_file` (climate.c lines
145-176): tokenize the line, skip it when fewer than 9 tokens result,
otherwise create a state from the tokens and run the placement loop. -/
def processLine (states : List ClimateInfo) (line : List Char) : List ClimateInfo :=
  if (tokenize line).length < 9 then states
  else scan_states NUM_STATES states (create_state (tokenize line)) (tokenize line)

/-- `analyze_file` (climate.c lines 142-177) over a list of input lines;
`main` calls it once per input file on the same `states` array, so a whole
run is `analyze_file allLines []` with the files' lines concatenated. -/
def analyze_file (lines : List (List Char)) (states : List ClimateInfo) : List ClimateInfo :=
  lines.foldl processLine states

/-- The derived average printed by `print_report` (climate.c lines 202,
203, 210): a running sum divided by `num_records`. -/
def report_average (sum : ℚ) (n : Nat) : ℚ := sum / (n : ℚ)

/-- The state code a valid line is filed under: the first two characters
of its first token. -/
def lineCode (line : List Char) : List Char := ((tokenize line).getD 0 []).take 2

/-- Codes of the lines that survive the 9-token validity check, in input
order. -/
def validCodes (lines : List (List Char)) : List (List Char) :=
  (lines.filter (fun l => 9 ≤ (tokenize l).length)).map lineCode

/-- First-seen deduplication starting from an already-seen list `acc`. -/
def seenFrom (acc : List (List Char)) (cs : List (List Char)) : List (List Char) :=
  cs.foldl (fun a c => if c ∈ a then a else a ++ [c]) acc

/-- The distinct codes of a run in order of first appearance. -/
def firstSeen (cs : List (List Char)) : List (List Char) := seenFrom [] cs

/-- Convenience: the characters of a string literal. -/
def strL (s : String) : List Char := s.toList

/-- Concrete TDV line: code CA, timestamp 1000000 ms, humidity 50, snow 0,
cloud 10, lightning 1, temperature 298.15 K (= 77 °F exactly). -/
def caLine1 : List Char := strL "CA\t1000000\tgeo\t50.0\t0\t10.0\t1\t100.0\t298.15\n"

/-- Concrete TDV line: code CA, timestamp 2000000 ms, humidity 60, snow 1,
cloud 20, lightning 0, temperature 273.15 K (= 32 °F exactly). -/
def caLine2 : List Char := strL "CA\t2000000\tgeo\t60.0\t1\t20.0\t0\t100.0\t273.15\n"

/-- Concrete TDV line whose millisecond timestamp 1428300000000 (April
2015, as in the sample data of the climate.c header comment) exceeds the
32-bit `int` range. -/
def caLine3 : List Char := strL "CA\t1428300000000\tgeo\t50.0\t0\t10.0\t0\t100.0\t298.15\n"

/-- Concrete valid TDV lines for codes WA and TN. -/
def waLine1 : List Char := strL "WA\t1000\tgeo\t50.0\t0\t10.0\t0\t100.0\t280.0\n"

def tnLine1 : List Char := strL "TN\t1000\tgeo\t50.0\t0\t10.0\t0\t100.0\t280.0\n"

def waLine2 : List Char := strL "WA\t3000\tgeo\t40.0\t1\t30.0\t1\t100.0\t290.0\n"

/-- The `n`-th two-letter code in the order AA, AB, ..., AZ, BA, ... -/
def codeOf (n : Nat) : List Char :=
  [Char.ofNat (65 + n / 26), Char.ofNat (65 + n % 26)]

/-- A valid TDV line carrying the given state code. -/
def mkLine (c : List Char) : List Char :=
  c ++ '\t' :: strL "1000\tgeo\t50.0\t0\t10.0\t0\t100.0\t280.0\n"

/-- 51 valid lines bearing 51 pairwise distinct state codes AA .. BY. -/
def lines51 : List (List Char) := (List.range 51).map (fun n => mkLine (codeOf n))

/-- A concrete accumulator whose maximum and minimum temperature are both
32 °F, as produced by folding one 32 °F record. -/
def tieState : ClimateInfo :=
  { code := strL "CA"
    num_records := 1
    humidity_sum := 60
    temperature_sum := 32
    max_temp := 32
    min_temp := 32
    max_temp_timestamp := 2000
    min_temp_timestamp := 2000
    lightning_strikes := 0
    snow_cover_records := 1
    cloud_cover_sum := 20 }

/-! Helper lemmas (shared). -/

theorem DBL_MAX_eq_pow : DBL_MAX = 2 ^ 1024 - 2 ^ 971 := by
  rw [DBL_MAX]; norm_num

theorem length_filter_lt_of_mem {α : Type} (p : α → Bool) :
    ∀ (l : List α) (a : α), a ∈ l → p a = false → (l.filter p).length < l.length := by
  intro l
  induction l with
  | nil => intro a ha _; cases ha
  | cons b l ih =>
    intro a ha hpa
    rcases List.mem_cons.mp ha with rfl | ha
    · rw [List.filter_cons, if_neg (by simp [hpa])]
      exact Nat.lt_succ_of_le (List.length_filter_le _ _)
    · rw [List.filter_cons]
      by_cases hb : p b
      · rw [if_pos (by simp [hb])]
        simpa using Nat.succ_lt_succ (ih a ha hpa)
      · rw [if_neg (by simp [hb])]
        exact Nat.lt_succ_of_lt (ih a ha hpa)

theorem tokenize_length_le (line : List Char) :
    (tokenize line).length ≤ ((line.splitOn '\t').filter (fun t => !t.isEmpty)).length := by
  rw [tokenize, List.length_take]
  exact min_le_right _ _

theorem update_state_info_code (s : ClimateInfo) (t : List (List Char)) :
    (update_state_info s t).code = s.code := rfl

theorem scan_states_cons_match (b : Nat) (s : ClimateInfo) (rest : List ClimateInfo)
    (st : ClimateInfo) (tokens : List (List Char)) (h : s.code = st.code) :
    scan_states (Nat.succ b) (s :: rest) st tokens = update_state_info s tokens :: rest := by
  rw [scan_states, if_pos h]

theorem scan_states_not_mem (st : ClimateInfo) (tokens : List (List Char)) :
    ∀ (states : List ClimateInfo) (b : Nat),
      st.code ∉ states.map ClimateInfo.code → states.length < b →
      scan_states b states st tokens = states ++ [st] := by
  intro states
  induction states with
  | nil =>
    intro b _ hb
    match b, hb with
    | Nat.succ b, _ => rfl
  | cons s rest ih =>
    intro b hmem hb
    match b, hb with
    | Nat.succ b, hb =>
      have hne : ¬s.code = st.code := by
        intro he
        exact hmem (by simp [List.mem_cons, he.symm])
      rw [scan_states, if_neg hne,
        ih b (fun hm => hmem (List.mem_cons_of_mem _ hm)) (Nat.lt_of_succ_lt_succ hb)]
      rfl

theorem scan_states_full (st : ClimateInfo) (tokens : List (List Char)) :
    ∀ (states : List ClimateInfo) (b : Nat),
      st.code ∉ states.map ClimateInfo.code → b ≤ states.length →
      scan_states b states st tokens = states := by
  intro states
  induction states with
  | nil =>
    intro b _ hb
    match b, hb with
    | 0, _ => rfl
  | cons s rest ih =>
    intro b hmem hb
    match b with
    | 0 => rfl
    | Nat.succ b =>
      have hne : ¬s.code = st.code := by
        intro he
        exact hmem (by simp [List.mem_cons, he.symm])
      rw [scan_states, if_neg hne,
        ih b (fun hm => hmem (List.mem_cons_of_mem _ hm)) (Nat.le_of_succ_le_succ hb)]

theorem scan_states_mem_map (st : ClimateInfo) (tokens : List (List Char)) :
    ∀ (states : List ClimateInfo) (b : Nat),
      states.length ≤ b → st.code ∈ states.map ClimateInfo.code →
      (scan_states b states st tokens).map ClimateInfo.code =
        states.map ClimateInfo.code := by
  intro states
  induction states with
  | nil => intro b _ hmem; cases hmem
  | cons s rest ih =>
    intro b hb hmem
    match b, hb with
    | Nat.succ b, hb =>
      by_cases he : s.code = st.code
      · rw [scan_states_cons_match b s rest st tokens he]
        simp [update_state_info_code]
      · have hmem2 : st.code ∈ rest.map ClimateInfo.code := by
          rcases List.mem_cons.mp hmem with h1 | h1
          · exact absurd h1.symm he
          · exact h1
        rw [scan_states, if_neg he]
        simp only [List.map_cons]
        rw [ih b (Nat.le_of_succ_le_succ hb) hmem2]

theorem update_max_temp_eq (s : ClimateInfo) (t : List (List Char)) :
    (update_state_info s t).max_temp =
      if kelvin_to_fahrenheit (atof (t.getD 8 [])) > s.max_temp
      then kelvin_to_fahrenheit (atof (t.getD 8 [])) else s.max_temp := rfl

theorem update_min_temp_eq (s : ClimateInfo) (t : List (List Char)) :
    (update_state_info s t).min_temp =
      if kelvin_to_fahrenheit (atof (t.getD 8 [])) < s.min_temp
      then kelvin_to_fahrenheit (atof (t.getD 8 [])) else s.min_temp := rfl

theorem update_max_temp_le (s : ClimateInfo) (t : List (List Char)) :
    s.max_temp ≤ (update_state_info s t).max_temp := by
  rw [update_max_temp_eq]
  split
  · exact le_of_lt (by assumption)
  · exact le_refl _

theorem update_max_temp_ge_record (s : ClimateInfo) (t : List (List Char)) :
    kelvin_to_fahrenheit (atof (t.getD 8 [])) ≤ (update_state_info s t).max_temp := by
  rw [update_max_temp_eq]
  split
  · exact le_refl _
  · exact le_of_not_lt (by assumption)

theorem update_min_temp_ge (s : ClimateInfo) (t : List (List Char)) :
    (update_state_info s t).min_temp ≤ s.min_temp := by
  rw [update_min_temp_eq]
  split
  · exact le_of_lt (by assumption)
  · exact le_refl _

theorem update_min_temp_le_record (s : ClimateInfo) (t : List (List Char)) :
    (update_state_info s t).min_temp ≤ kelvin_to_fahrenheit (atof (t.getD 8 [])) := by
  rw [update_min_temp_eq]
  split
  · exact le_refl _
  · exact le_of_not_lt (by assumption)

theorem foldl_update_max_temp_le :
    ∀ (ts : List (List (List Char))) (s : ClimateInfo),
      s.max_temp ≤ (ts.foldl update_state_info s).max_temp := by
  intro ts
  induction ts with
  | nil => intro s; exact le_refl _
  | cons t0 ts ih =>
    intro s
    exact le_trans (update_max_temp_le s t0) (ih (update_state_info s t0))

theorem foldl_update_min_temp_ge :
    ∀ (ts : List (List (List Char))) (s : ClimateInfo),
      (ts.foldl update_state_info s).min_temp ≤ s.min_temp := by
  intro ts
  induction ts with
  | nil => intro s; exact le_refl _
  | cons t0 ts ih =>
    intro s
    exact le_trans (ih (update_state_info s t0)) (update_min_temp_ge s t0)

theorem seenFrom_nil (acc : List (List Char)) : seenFrom acc [] = acc := rfl

theorem seenFrom_cons (acc : List (List Char)) (c : List Char) (cs : List (List Char)) :
    seenFrom acc (c :: cs) = seenFrom (if c ∈ acc then acc else acc ++ [c]) cs := rfl

theorem length_le_seenFrom :
    ∀ (cs : List (List Char)) (acc : List (List Char)),
      acc.length ≤ (seenFrom acc cs).length := by
  intro cs
  induction cs with
  | nil => intro acc; exact le_refl _
  | cons c cs ih =>
    intro acc
    rw [seenFrom_cons]
    by_cases h : c ∈ acc
    · rw [if_pos h]; exact ih acc
    · rw [if_neg h]
      exact le_trans (by simp) (ih (acc ++ [c]))

theorem seenFrom_nodup :
    ∀ (cs : List (List Char)) (acc : List (List Char)),
      acc.Nodup → (seenFrom acc cs).Nodup := by
  intro cs
  induction cs with
  | nil => intro acc h; exact h
  | cons c cs ih =>
    intro acc h
    rw [seenFrom_cons]
    by_cases hc : c ∈ acc
    · rw [if_pos hc]; exact ih acc h
    · rw [if_neg hc]
      refine ih _ ?_
      have := List.Nodup.concat hc h
      rwa [List.concat_eq_append] at this

theorem seenFrom_eq_append :
    ∀ (cs : List (List Char)) (acc : List (List Char)),
      ∃ tl, seenFrom acc cs = acc ++ tl := by
  intro cs
  induction cs with
  | nil => intro acc; exact ⟨[], by simp [seenFrom_nil]⟩
  | cons c cs ih =>
    intro acc
    rw [seenFrom_cons]
    by_cases h : c ∈ acc
    · rw [if_pos h]; exact ih acc
    · rw [if_neg h]
      obtain ⟨tl, htl⟩ := ih (acc ++ [c])
      exact ⟨[c] ++ tl, by rw [htl, List.append_assoc]⟩

theorem take_seenFrom_of_full (cs : List (List Char)) (acc : List (List Char))
    (h : NUM_STATES ≤ acc.length) :
    (seenFrom acc cs).take NUM_STATES = acc.take NUM_STATES := by
  obtain ⟨tl, htl⟩ := seenFrom_eq_append cs acc
  rw [htl, List.take_append_of_le_length h]

theorem validCodes_cons_valid (line : List Char) (rest : List (List Char))
    (hv : 9 ≤ (tokenize line).length) :
    validCodes (line :: rest) = lineCode line :: validCodes rest := by
  rw [validCodes, validCodes, List.filter_cons, if_pos (by simpa using hv)]
  rfl

theorem validCodes_cons_invalid (line : List Char) (rest : List (List Char))
    (hv : ¬9 ≤ (tokenize line).length) :
    validCodes (line :: rest) = validCodes rest := by
  rw [validCodes, validCodes, List.filter_cons, if_neg (by simpa using hv)]

/-- The snapshot's codes after a run started from any accumulator state:
they are the first-seen extension of the starting codes by the codes of
the valid lines, provided that extension fits in the 50-slot array. -/
theorem analyze_codes :
    ∀ (lines : List (List Char)) (states : List ClimateInfo),
      (seenFrom (states.map ClimateInfo.code) (validCodes lines)).length ≤ NUM_STATES →
      (analyze_file lines states).map ClimateInfo.code =
        seenFrom (states.map ClimateInfo.code) (validCodes lines) := by
  intro lines
  induction lines with
  | nil => intro states _; rfl
  | cons line rest ih =>
    intro states hlen
    have hana : analyze_file (line :: rest) states = analyze_file rest (processLine states line) := rfl
    by_cases hv : 9 ≤ (tokenize line).length
    · have hvc := validCodes_cons_valid line rest hv
      rw [hvc] at hlen ⊢
      rw [seenFrom_cons] at hlen ⊢
      by_cases hmem : lineCode line ∈ states.map ClimateInfo.code
      · rw [if_pos hmem] at hlen ⊢
        have hle : states.length ≤ NUM_STATES := by
          have h1 := length_le_seenFrom (validCodes rest) (states.map ClimateInfo.code)
          have h2 : (states.map ClimateInfo.code).length = states.length := List.length_map _ _
          omega
        have hproc : (processLine states line).map ClimateInfo.code =
            states.map ClimateInfo.code := by
          rw [processLine, if_neg (Nat.not_lt.mpr hv)]
          exact scan_states_mem_map _ _ states NUM_STATES hle hmem
        rw [hana, ih (processLine states line) (by rw [hproc]; exact hlen), hproc]
      · rw [if_neg hmem] at hlen ⊢
        by_cases hroom : states.length < NUM_STATES
        · have hproc : processLine states line = states ++ [create_state (tokenize line)] := by
            rw [processLine, if_neg (Nat.not_lt.mpr hv)]
            exact scan_states_not_mem _ _ states NUM_STATES hmem hroom
          have hmap : (processLine states line).map ClimateInfo.code =
              states.map ClimateInfo.code ++ [lineCode line] := by
            rw [hproc, List.map_append]
            rfl
          rw [hana, ih (processLine states line) (by rw [hmap]; exact hlen), hmap]
        · exfalso
          have h1 := length_le_seenFrom (validCodes rest)
            (states.map ClimateInfo.code ++ [lineCode line])
          have h2 : (states.map ClimateInfo.code ++ [lineCode line]).length =
              states.length + 1 := by simp
          rw [NUM_STATES] at hlen hroom
          omega
    · have hvc := validCodes_cons_invalid line rest hv
      have hproc : processLine states line = states := by
        rw [processLine, if_pos (Nat.not_le.mp hv)]
      rw [hvc] at hlen ⊢
      rw [hana, hproc]
      exact ih states hlen

/-- The snapshot's codes after any run, with no capacity hypothesis: the
first-seen extension of the starting codes by the valid lines' codes,
truncated to the 50 slots of the array (codes past the capacity never get
a slot). -/
theorem analyze_codes_take :
    ∀ (lines : List (List Char)) (states : List ClimateInfo),
      states.length ≤ NUM_STATES →
      (analyze_file lines states).map ClimateInfo.code =
        (seenFrom (states.map ClimateInfo.code) (validCodes lines)).take NUM_STATES := by
  intro lines
  induction lines with
  | nil =>
    intro states hle
    exact (List.take_of_length_le (by simpa using hle)).symm
  | cons line rest ih =>
    intro states hle
    have hana : analyze_file (line :: rest) states =
        analyze_file rest (processLine states line) := rfl
    by_cases hv : 9 ≤ (tokenize line).length
    · rw [validCodes_cons_valid line rest hv, seenFrom_cons]
      by_cases hmem : lineCode line ∈ states.map ClimateInfo.code
      · rw [if_pos hmem]
        have hproc : (processLine states line).map ClimateInfo.code =
            states.map ClimateInfo.code := by
          rw [processLine, if_neg (Nat.not_lt.mpr hv)]
          exact scan_states_mem_map _ _ states NUM_STATES hle hmem
        have hlen1 : (processLine states line).length = states.length := by
          have h1 : ((processLine states line).map ClimateInfo.code).length =
              (states.map ClimateInfo.code).length := by rw [hproc]
          simpa using h1
        have hlen2 : (processLine states line).length ≤ NUM_STATES := by
          rw [hlen1]; exact hle
        rw [hana, ih (processLine states line) hlen2, hproc]
      · rw [if_neg hmem]
        by_cases hroom : states.length < NUM_STATES
        · have hproc : processLine states line =
              states ++ [create_state (tokenize line)] := by
            rw [processLine, if_neg (Nat.not_lt.mpr hv)]
            exact scan_states_not_mem _ _ states NUM_STATES hmem hroom
          have hmap : (processLine states line).map ClimateInfo.code =
              states.map ClimateInfo.code ++ [lineCode line] := by
            rw [hproc, List.map_append]
            rfl
          have hlen2 : (processLine states line).length ≤ NUM_STATES := by
            rw [hproc]
            simpa using hroom
          rw [hana, ih (processLine states line) hlen2, hmap]
        · have hfull : NUM_STATES ≤ states.length := Nat.not_lt.mp hroom
          have hfullmap : NUM_STATES ≤ (states.map ClimateInfo.code).length := by
            simpa using hfull
          have hproc : processLine states line = states := by
            rw [processLine, if_neg (Nat.not_lt.mpr hv)]
            exact scan_states_full _ _ states NUM_STATES hmem hfull
          rw [hana, hproc, ih states hle,
            take_seenFrom_of_full (validCodes rest) (states.map ClimateInfo.code) hfullmap,
            take_seenFrom_of_full (validCodes rest)
              (states.map ClimateInfo.code ++ [lineCode line])
              (le_trans hfullmap (by simp)),
            List.take_append_of_le_length hfullmap]
    · rw [validCodes_cons_invalid line rest hv]
      have hproc : processLine states line = states := by
        rw [processLine, if_pos (Nat.not_le.mp hv)]
      rw [hana, hproc]
      exact ih states hle

/-! Claim theorems. -/

/-- Claim C1 (code evaluation at the failing input): processing exactly the
two CA records of the end-to-end example (77 °F at T1 = 1000 s, 32 °F at
T2 = 2000 s, humidity 50/60, cloud 10/20, snow 0/1, lightning 1/0) does
NOT give the accumulator the claim describes: the first record only
installs a zero-initialized accumulator and is never folded, so the final
accumulator has `record_count = 1`, humidity sum 60 (average 60, not 55),
cloud sum 20 (average 20, not 15), `max_temp = min_temp = 32` both stamped
at T2, lightning 0, snow 1. -/
theorem C1_code_eval :
    analyze_file [caLine1, caLine2] [] =
      [{ code := strL "CA"
         num_records := 1
         humidity_sum := 60
         temperature_sum := 32
         max_temp := 32
         min_temp := 32
         max_temp_timestamp := 2000
         min_temp_timestamp := 2000
         lightning_strikes := 0
         snow_cover_records := 1
         cloud_cover_sum := 20 }] ∧
    report_average 60 1 = 60 ∧ report_average 20 1 = 20 := by
  exact ⟨by decide, by decide, by decide⟩

/-- Claim C2 (code evaluation at the failing input): after processing one
single valid CA record, the snapshot contains an accumulator whose
`record_count` is 0 — the claimed invariant `record_count ≥ 1` fails, and
the report-time division by `record_count` is a division by zero. -/
theorem C2_code_eval :
    (analyze_file [caLine1] []).map ClimateInfo.num_records = [0] := by decide

/-- Claim C7 (code evaluation at the failing input): for the millisecond
timestamp 1428300000000 the claim demands the stored extremum timestamp
1428300000000 / 1000 = 1428300000, but `atoi` truncates the field to a
32-bit `int` (-1924109568), so the stored timestamp is -1924109. -/
theorem C7_code_eval :
    (analyze_file [caLine1, caLine3] []).map ClimateInfo.max_temp_timestamp = [-1924109] ∧
    atoiVal (strL "1428300000000") = 1428300000000 ∧
    Int.tdiv 1428300000000 1000 = 1428300000 := by
  exact ⟨by decide, by decide, by decide⟩

/-- Claim C8: for every run, the snapshot enumerates the accumulators in
order of first appearance of each state code across all sources — its
code list equals the first-seen deduplication of the valid records'
codes, truncated to the `NUM_STATES = 50` slots of the array (within
capacity the truncation is the identity, so the snapshot is exactly the
first-seen code list); in particular processing records with codes "WA",
"TN", "WA" in that order yields a snapshot ordered [WA, TN]. -/
theorem C8_snapshot_first_seen_order :
    (∀ lines : List (List Char),
      (analyze_file lines []).map ClimateInfo.code =
        (firstSeen (validCodes lines)).take NUM_STATES) ∧
    (analyze_file [waLine1, tnLine1, waLine2] []).map ClimateInfo.code =
      [strL "WA", strL "TN"] := by
  constructor
  · intro lines
    exact analyze_codes_take lines [] (Nat.zero_le _)
  · decide

/-- Claim C4 as stated is false: the `states` array has only
`NUM_STATES = 50` slots, so in a run over 51 valid records bearing 51
pairwise distinct state codes the 51st code ("BY") appears in the input
yet gets no accumulator — the snapshot holds accumulators for only the
first 50 codes. -/
theorem C4_counterexample :
    strL "BY" ∈ validCodes lines51 ∧
    strL "BY" ∉ (analyze_file lines51 []).map ClimateInfo.code := by
  exact ⟨by decide, by decide⟩

/-- Claim C4 amended: provided at most `NUM_STATES = 50` distinct state
codes appear among the valid records (codes past the capacity are
silently dropped), the snapshot holds exactly one accumulator per
distinct code that appeared, in first-seen order: its code list equals
the first-seen deduplication of the valid records' codes, which has no
duplicates.  Accumulators are created on the first record bearing their
code and are never merged, split, or removed. -/
theorem C4_one_accumulator_per_code (lines : List (List Char))
    (hcap : (firstSeen (validCodes lines)).length ≤ NUM_STATES) :
    (analyze_file lines []).map ClimateInfo.code = firstSeen (validCodes lines) ∧
    (firstSeen (validCodes lines)).Nodup := by
  constructor
  · exact analyze_codes lines [] hcap
  · exact seenFrom_nodup _ _ List.nodup_nil

/-- Witness for C4 on the concrete three-line WA/TN/WA run. -/
theorem C4_one_accumulator_per_code_witness :
    (firstSeen (validCodes [waLine1, tnLine1, waLine2])).length ≤ NUM_STATES ∧
    ((analyze_file [waLine1, tnLine1, waLine2] []).map ClimateInfo.code =
        firstSeen (validCodes [waLine1, tnLine1, waLine2]) ∧
      (firstSeen (validCodes [waLine1, tnLine1, waLine2])).Nodup) :=
  ⟨by decide, C4_one_accumulator_per_code [waLine1, tnLine1, waLine2] (by decide)⟩

/-- Claim C5 as stated is false: the run over the single 32 °F CA record
leaves the CA accumulator's `max_temp` at the sentinel `-DBL_MAX`, which
is smaller than the 32 °F temperature of the record that was processed
for CA (and `min_temp` stays at `DBL_MAX`, larger than 32 °F) — the
record that creates an accumulator is never folded into it. -/
theorem C5_counterexample :
    9 ≤ (tokenize caLine2).length ∧
    kelvin_to_fahrenheit (atof ((tokenize caLine2).getD 8 [])) = 32 ∧
    (analyze_file [caLine2] []).map ClimateInfo.max_temp = [-DBL_MAX] ∧
    (analyze_file [caLine2] []).map ClimateInfo.min_temp = [DBL_MAX] ∧
    -DBL_MAX < 32 ∧ (32 : ℚ) < DBL_MAX := by
  refine ⟨by decide, by decide, by decide, by decide, by decide, by decide⟩

/-- Claim C5 amended: for every accumulator and every sequence of records
folded into it through `update_state_info` (in the code these are the
records for the state after the one whose arrival created the
accumulator), the final `max_temp` is ≥ the Fahrenheit temperature of
every folded record and the final `min_temp` is ≤ every one. -/
theorem C5_extrema_bound_folded (s : ClimateInfo) (ts : List (List (List Char)))
    (t : List (List Char)) (ht : t ∈ ts) :
    kelvin_to_fahrenheit (atof (t.getD 8 [])) ≤
      (ts.foldl update_state_info s).max_temp ∧
    (ts.foldl update_state_info s).min_temp ≤
      kelvin_to_fahrenheit (atof (t.getD 8 [])) := by
  induction ts generalizing s with
  | nil => cases ht
  | cons t0 ts ih =>
    rcases List.mem_cons.mp ht with rfl | ht2
    · constructor
      · exact le_trans (update_max_temp_ge_record s t)
          (foldl_update_max_temp_le ts (update_state_info s t))
      · exact le_trans (foldl_update_min_temp_ge ts (update_state_info s t))
          (update_min_temp_le_record s t)
    · exact ih (update_state_info s t0) ht2

/-- Witness for C5 on a concrete accumulator and one folded 32 °F record. -/
theorem C5_extrema_bound_folded_witness :
    tokenize caLine2 ∈ [tokenize caLine2] ∧
    (kelvin_to_fahrenheit (atof ((tokenize caLine2).getD 8 [])) ≤
        ([tokenize caLine2].foldl update_state_info
          (create_state (tokenize caLine1))).max_temp ∧
      ([tokenize caLine2].foldl update_state_info
          (create_state (tokenize caLine1))).min_temp ≤
        kelvin_to_fahrenheit (atof ((tokenize caLine2).getD 8 []))) :=
  ⟨List.mem_singleton_self _,
   C5_extrema_bound_folded (create_state (tokenize caLine1)) [tokenize caLine2]
     (tokenize caLine2) (List.mem_singleton_self _)⟩

/-- Claim C6: folding a record whose Fahrenheit temperature equals the
accumulator's current `max_temp` leaves both `max_temp` and
`max_temp_timestamp` unchanged, and symmetrically for the minimum — the
extremum updates use strict comparisons, so the first occurrence of an
extremum value keeps its timestamp. -/
theorem C6_tie_preserves_extremum (s : ClimateInfo) (t : List (List Char)) :
    (kelvin_to_fahrenheit (atof (t.getD 8 [])) = s.max_temp →
      (update_state_info s t).max_temp = s.max_temp ∧
      (update_state_info s t).max_temp_timestamp = s.max_temp_timestamp) ∧
    (kelvin_to_fahrenheit (atof (t.getD 8 [])) = s.min_temp →
      (update_state_info s t).min_temp = s.min_temp ∧
      (update_state_info s t).min_temp_timestamp = s.min_temp_timestamp) := by
  constructor <;> intro h <;> simp only [List.getD_eq_getElem?_getD] at h <;>
    simp [update_state_info, h]

/-- Witness for C6 at a concrete accumulator (max = min = 32 °F) and a
concrete 32 °F record. -/
theorem C6_tie_preserves_extremum_witness :
    ((update_state_info tieState (tokenize caLine2)).max_temp = tieState.max_temp ∧
      (update_state_info tieState (tokenize caLine2)).max_temp_timestamp =
        tieState.max_temp_timestamp) ∧
    ((update_state_info tieState (tokenize caLine2)).min_temp = tieState.min_temp ∧
      (update_state_info tieState (tokenize caLine2)).min_temp_timestamp =
        tieState.min_temp_timestamp) :=
  ⟨(C6_tie_preserves_extremum tieState (tokenize caLine2)).1 (by decide),
   (C6_tie_preserves_extremum tieState (tokenize caLine2)).2 (by decide)⟩

/-- Claim C3: the first valid record carrying a new state code only
installs the zero-initialized accumulator built by `create_state`
(`record_count = 0`, zero sums and flag totals, sentinel extrema
`-DBL_MAX`/`DBL_MAX`, zero extremum timestamps) and its own field values
are never folded in; a subsequent valid record whose code matches an
existing accumulator is folded through `update_state_info`, which
increments `record_count`. -/
theorem C3_first_record_not_folded (states : List ClimateInfo) (line : List Char)
    (hv : 9 ≤ (tokenize line).length)
    (hnew : lineCode line ∉ states.map ClimateInfo.code)
    (hroom : states.length < NUM_STATES) :
    processLine states line = states ++ [create_state (tokenize line)] ∧
    (create_state (tokenize line)).num_records = 0 ∧
    (create_state (tokenize line)).humidity_sum = 0 ∧
    (create_state (tokenize line)).temperature_sum = 0 ∧
    (create_state (tokenize line)).cloud_cover_sum = 0 ∧
    (create_state (tokenize line)).lightning_strikes = 0 ∧
    (create_state (tokenize line)).snow_cover_records = 0 ∧
    (create_state (tokenize line)).max_temp = -DBL_MAX ∧
    (create_state (tokenize line)).min_temp = DBL_MAX ∧
    (create_state (tokenize line)).max_temp_timestamp = 0 ∧
    (create_state (tokenize line)).min_temp_timestamp = 0 ∧
    (∀ (s : ClimateInfo) (rest : List ClimateInfo) (l2 : List Char),
      9 ≤ (tokenize l2).length → s.code = lineCode l2 →
      processLine (s :: rest) l2 = update_state_info s (tokenize l2) :: rest) ∧
    (∀ (s : ClimateInfo) (t : List (List Char)),
      (update_state_info s t).num_records = (s.num_records + 1) % 2 ^ 64) := by
  refine ⟨?_, rfl, rfl, rfl, rfl, rfl, rfl, rfl, rfl, rfl, rfl, ?_, ?_⟩
  · rw [processLine, if_neg (Nat.not_lt.mpr hv)]
    exact scan_states_not_mem _ _ states NUM_STATES hnew hroom
  · intro s rest l2 hv2 hc
    rw [processLine, if_neg (Nat.not_lt.mpr hv2)]
    exact scan_states_cons_match 49 s rest _ _ hc
  · intro s t
    rfl

/-- Witness for C3: an empty accumulator set, the concrete 77 °F CA line
as the first record, and the folding clauses instantiated. -/
theorem C3_first_record_not_folded_witness :
    9 ≤ (tokenize caLine1).length ∧
    lineCode caLine1 ∉ ([] : List ClimateInfo).map ClimateInfo.code ∧
    ([] : List ClimateInfo).length < NUM_STATES ∧
    (processLine [] caLine1 = [] ++ [create_state (tokenize caLine1)] ∧
      (create_state (tokenize caLine1)).num_records = 0 ∧
      (create_state (tokenize caLine1)).humidity_sum = 0 ∧
      (create_state (tokenize caLine1)).temperature_sum = 0 ∧
      (create_state (tokenize caLine1)).cloud_cover_sum = 0 ∧
      (create_state (tokenize caLine1)).lightning_strikes = 0 ∧
      (create_state (tokenize caLine1)).snow_cover_records = 0 ∧
      (create_state (tokenize caLine1)).max_temp = -DBL_MAX ∧
      (create_state (tokenize caLine1)).min_temp = DBL_MAX ∧
      (create_state (tokenize caLine1)).max_temp_timestamp = 0 ∧
      (create_state (tokenize caLine1)).min_temp_timestamp = 0 ∧
      (∀ (s : ClimateInfo) (rest : List ClimateInfo) (l2 : List Char),
        9 ≤ (tokenize l2).length → s.code = lineCode l2 →
        processLine (s :: rest) l2 = update_state_info s (tokenize l2) :: rest) ∧
      (∀ (s : ClimateInfo) (t : List (List Char)),
        (update_state_info s t).num_records = (s.num_records + 1) % 2 ^ 64)) :=
  ⟨by decide, by decide, by decide,
   C3_first_record_not_folded [] caLine1 (by decide) (by decide) (by decide)⟩

/-- Claim C9: a line yielding fewer than 9 tab-separated fields is a
no-op on the accumulator state — nothing changes, nothing is created. -/
theorem C9_short_line (states : List ClimateInfo) (line : List Char)
    (h : (line.splitOn '\t').length < 9) : processLine states line = states := by
  have h1 : (tokenize line).length < 9 :=
    lt_of_le_of_lt (le_trans (tokenize_length_le line) (List.length_filter_le _ _)) h
  rw [processLine, if_pos h1]

/-- Witness for C9 on a concrete two-field line. -/
theorem C9_short_line_witness :
    ((strL "a\tb\n").splitOn '\t').length < 9 ∧
    processLine [] (strL "a\tb\n") = [] :=
  ⟨by decide, C9_short_line [] (strL "a\tb\n") (by decide)⟩

/-- Claim C10: consecutive tabs count as one separator, so a line with
exactly 9 tab-separated fields of which at least one is empty tokenizes
to fewer than 9 tokens and is rejected — processing it is a no-op. -/
theorem C10_empty_field_rejected (states : List ClimateInfo) (line : List Char)
    (h9 : (line.splitOn '\t').length = 9) (he : [] ∈ line.splitOn '\t') :
    (tokenize line).length < 9 ∧ processLine states line = states := by
  have hlt : ((line.splitOn '\t').filter (fun t => !t.isEmpty)).length <
      (line.splitOn '\t').length :=
    length_filter_lt_of_mem _ _ _ he (by decide)
  have h1 : (tokenize line).length < 9 :=
    lt_of_le_of_lt (tokenize_length_le line) (h9 ▸ hlt)
  exact ⟨h1, by rw [processLine, if_pos h1]⟩

/-- Witness for C10 on a concrete 9-field line whose third field is empty
(two adjacent tabs). -/
theorem C10_empty_field_rejected_witness :
    ((strL "CA\t1\t\tg\t1\t0\t1\t0\t1").splitOn '\t').length = 9 ∧
    [] ∈ (strL "CA\t1\t\tg\t1\t0\t1\t0\t1").splitOn '\t' ∧
    ((tokenize (strL "CA\t1\t\tg\t1\t0\t1\t0\t1")).length < 9 ∧
      processLine [] (strL "CA\t1\t\tg\t1\t0\t1\t0\t1") = []) :=
  ⟨by decide, by decide,
   C10_empty_field_rejected [] (strL "CA\t1\t\tg\t1\t0\t1\t0\t1") (by decide) (by decide)⟩

end Climate

